import Mathlib

/-!
Shallow embedding of the configuration/authentication subsystem of the
Mail-and-Packages integration (`config_flow.py`, `oauth.py`), together with
theorems settling the specification's claims about it.
-/

namespace MailAndPackages

/-- Python strings are modelled as lists of characters. -/
abbrev PyStr := List Char

/-- Coerce a Lean string literal into the Python-string model. -/
def pstr (s : String) : PyStr := s.data

/-- Python substring containment, `needle in hay`. -/
def pyContains (needle : PyStr) : PyStr → Bool
  | [] => needle.isEmpty
  | c :: t => needle.isPrefixOf (c :: t) || pyContains needle t

/-- Worker for Python `str.split` with a non-empty separator.  The fuel
argument only bounds the recursion: each step consumes at least one character
of the haystack when the separator is non-empty, so fuel equal to the
haystack length plus one is always sufficient and the fuel-exhaustion clause
is unreachable in every use below. -/
def pySplitGo (sep : PyStr) : Nat → PyStr → PyStr → List PyStr
  | _, [], acc => [acc.reverse]
  | 0, hay, acc => [acc.reverse ++ hay]
  | fuel + 1, c :: t, acc =>
    if sep.isPrefixOf (c :: t) then
      acc.reverse :: pySplitGo sep fuel ((c :: t).drop sep.length) []
    else
      pySplitGo sep fuel t (c :: acc)

/-- Python `s.split(sep)` for a non-empty separator `sep`: splits on every
non-overlapping occurrence of `sep`, left to right; a string with no
occurrence yields a one-element list. -/
def pySplit (sep hay : PyStr) : List PyStr := pySplitGo sep (hay.length + 1) hay []

/-- Modelled from the spec: `DEFAULT_FOLDER` lives in `const.py`, which is not
among the sources; the spec describes the parse fallback as the single
default folder name with "INBOX" semantics. -/
def DEFAULT_FOLDER : PyStr := pstr "INBOX"

/-- The literal separator token for the slash-delimiter parse in
`_get_mailboxes`. -/
def SEP_SLASH : PyStr := pstr " \"/\" "

/-- The literal separator token for the period-delimiter parse in
`_get_mailboxes`. -/
def SEP_DOT : PyStr := pstr " \".\" "

/-- One parse loop of `_get_mailboxes`: append `entry.split(sep)[1]` for each
listing entry until some entry raises IndexError (its split has no index 1).
Returns the accumulated mailboxes, including everything appended before the
failure, and whether an IndexError occurred. -/
def mailboxLoop (sep : PyStr) : List PyStr → List PyStr → List PyStr × Bool
  | [], acc => (acc, false)
  | i :: rest, acc =>
    match (pySplit sep i)[1]? with
    | some name => mailboxLoop sep rest (acc ++ [name])
    | none => (acc, true)

/-- Embedding of `_get_mailboxes` after login: `status` and `folderlist` are
the (decoded) results of `account.list()`.  On a non-OK status the default
folder is returned; otherwise the slash-delimiter loop runs, on IndexError
the period-delimiter loop re-runs over the whole listing appending to the
same `mailboxes` list, and on a second IndexError the default folder is
appended to that list. -/
def get_mailboxes (status : PyStr) (folderlist : List PyStr) : List PyStr :=
  if status ≠ pstr "OK" then [DEFAULT_FOLDER]
  else
    let r1 := mailboxLoop SEP_SLASH folderlist []
    if r1.2 = false then r1.1
    else
      let r2 := mailboxLoop SEP_DOT folderlist r1.1
      if r2.2 = false then r2.1
      else r2.1 ++ [DEFAULT_FOLDER]

/-- A listing on which both the slash parse and the period parse fail with an
IndexError, but only after the slash parse has already appended one folder. -/
def exListing : List PyStr := [pstr " \"/\" A", pstr "x"]

/-- Embedding of `_check_amazon_forwards`: returns the error list (first
element is the status consumed by the caller) and the parsed address list. -/
def check_amazon_forwards (forwards : PyStr) : List String × List PyStr :=
  let errors : List String :=
    if pyContains (pstr "@amazon") forwards then ["amazon_domain"] else []
  let amazon_forwards_list : List PyStr :=
    if pyContains (pstr ",") forwards then pySplit (pstr ",") forwards
    else if forwards = pstr "" ∨ forwards = pstr "(none)" ∨ forwards = pstr "" then []
    else if forwards ≠ [] then [forwards]
    else []
  let errors := if errors.length = 0 then errors ++ ["ok"] else errors
  (errors, amazon_forwards_list)

/-- The value stored under the amazon-forwards key of the submitted mapping:
either a Python string or a non-string value (an already-parsed list). -/
inductive FwdsVal
  | str (s : PyStr)
  | list (l : List PyStr)
  deriving DecidableEq

/-- The submitted mapping consumed by `_validate_user_input`; the optional
custom-image file field models the key being absent from the dict. -/
structure UserInput where
  amazon_fwds : FwdsVal
  generate_mp4 : Bool
  custom_img : Bool
  custom_img_file : Option PyStr
  scan_interval : Int
  imap_timeout : Int
  deriving DecidableEq

/-- The field-to-error-code dict built by `_validate_user_input`; each field
of this structure is one possible key of the Python dict. -/
structure StepErrors where
  amazon_fwds : Option String
  generate_mp4 : Option String
  custom_img_file : Option String
  scan_interval : Option String
  imap_timeout : Option String
  deriving DecidableEq

/-- Python `len(errors) == 0` on the error dict. -/
def StepErrors.isEmpty (e : StepErrors) : Bool :=
  e.amazon_fwds.isNone && e.generate_mp4.isNone && e.custom_img_file.isNone
    && e.scan_interval.isNone && e.imap_timeout.isNone

/-- The amazon-forwarding block of `_validate_user_input`: when the field
holds a string it is parsed, the parsed list is written back in both the ok
and the error case, and a non-ok status becomes the field error code.
A non-string value is left untouched. -/
def validate_amazon (u : UserInput) : Option String × UserInput :=
  match u.amazon_fwds with
  | .str s =>
    let r := check_amazon_forwards s
    let s0 := r.1.headD ""
    (if s0 = "ok" then none else some s0, { u with amazon_fwds := .list r.2 })
  | .list _ => (none, u)

/-- Embedding of `_validate_user_input`.  The external collaborators are
passed as oracles: `ffmpegOk` models `check_ffmpeg()` and `fileExists`
models `os.path.isfile`. -/
def validate_user_input (ffmpegOk : Bool) (fileExists : PyStr → Bool)
    (u : UserInput) : StepErrors × UserInput :=
  let a := validate_amazon u
  let u1 := a.2
  let valid1 := if u1.generate_mp4 then ffmpegOk else true
  let mp4Err : Option String := if !valid1 then some "ffmpeg_not_found" else none
  let valid2 :=
    match u1.custom_img, u1.custom_img_file with
    | true, some f => fileExists f
    | _, _ => true
  let fileErr : Option String := if !valid2 then some "file_not_found" else none
  let scanErr : Option String :=
    if u1.scan_interval < 5 then some "scan_too_low" else none
  let timeoutErr : Option String :=
    if u1.imap_timeout < 10 then some "timeout_too_low" else none
  (⟨a.1, mp4Err, fileErr, scanErr, timeoutErr⟩, u1)

/-- The flow's accumulated data (`self._data`) restricted to the keys read or
written around step `config_2`: the host collected in step 1 and the fields
of the step-2 schema. -/
structure FlowData where
  host : PyStr
  amazon_fwds : FwdsVal
  generate_mp4 : Bool
  custom_img : Bool
  custom_img_file : Option PyStr
  scan_interval : Int
  imap_timeout : Int
  deriving DecidableEq

/-- Effect of `self._data.update(user_input)` on the modelled keys: every key
present in the submitted mapping overwrites the accumulated value; the
optional custom-image file key is only overwritten when present. -/
def FlowData.updateWith (d : FlowData) (u : UserInput) : FlowData :=
  { d with
    amazon_fwds := u.amazon_fwds
    generate_mp4 := u.generate_mp4
    custom_img := u.custom_img
    custom_img_file :=
      match u.custom_img_file with
      | some f => some f
      | none => d.custom_img_file
    scan_interval := u.scan_interval
    imap_timeout := u.imap_timeout }

/-- Result of one submission to step `config_2`: create the entry and
terminate, advance to step `config_3`, or re-render the `config_2` form with
the (validation-modified) submitted values and the error dict. -/
inductive Step2Result
  | createEntry (title : PyStr) (data : FlowData)
  | goConfig3 (data : FlowData)
  | showForm (submitted : UserInput) (errors : StepErrors) (data : FlowData)
  deriving DecidableEq

/-- Embedding of `async_step_config_2` for a non-None submission: validate,
merge into the accumulated data, then either advance (to `config_3` when the
accumulated custom-image flag is set, else create the entry titled with the
accumulated host) or re-render with the submitted values and errors. -/
def async_step_config_2 (ffmpegOk : Bool) (fileExists : PyStr → Bool)
    (d : FlowData) (u : UserInput) : Step2Result :=
  let r := validate_user_input ffmpegOk fileExists u
  let d' := d.updateWith r.2
  if r.1.isEmpty then
    if d'.custom_img then .goConfig3 d'
    else .createEntry d'.host d'
  else .showForm r.2 r.1 d'

/-- Python dicts with string keys, modelled as association lists; lookup
returns the first binding of a key. -/
abbrev Dict (V : Type) := List (String × V)

/-- Key lookup in the dict model. -/
def dlookup {V : Type} (k : String) : Dict V → Option V
  | [] => none
  | p :: t => if k = p.1 then some p.2 else dlookup k t

/-- Effect of Python `d.update(u)` on `d`: keys already in `d` keep their
position and take the value from `u` when `u` has them; keys only in `u` are
appended.  Keys are never removed. -/
def dictUpdate {V : Type} (d u : Dict V) : Dict V :=
  d.map (fun p =>
    match dlookup p.1 u with
    | some v => (p.1, v)
    | none => p)
    ++ u.filter (fun p => (dlookup p.1 d).isNone)

/-- Python `d.update(u)` as an expression: the mutated dict together with the
expression's value, which is Python `None`. -/
def pyDictUpdateRet {V : Type} (d u : Dict V) : Dict V × Option (Dict V) :=
  (dictUpdate d u, none)

/-- Embedding of `_get_default` inside the schema builders:
`user_input.get(key, default_dict.get(key, fallback_default))`. -/
def get_default {V : Type} (user_input default_dict : Dict V) (key : String)
    (fallback_default : Option V) : Option V :=
  match dlookup key user_input with
  | some v => some v
  | none =>
    match dlookup key default_dict with
    | some v => some v
    | none => fallback_default

/-- Errors signalled by the `O365Auth` code via exceptions. -/
inductive OAuthErr
  | missingTenantID
  | tokenError
  deriving DecidableEq

/-- The configuration keys of `O365Auth`; the tenant is `none` when the
Python value is `None`. -/
structure O365Config where
  tenant : Option PyStr
  client_id : PyStr
  secret : PyStr
  deriving DecidableEq

/-- The fixed shared authority URL the source builds (the f-string contains
no interpolation). -/
def COMMON_AUTHORITY : String := "https://login.microsoftonline.com/common"

/-- Embedding of `O365Auth._set_authority`: raises `MissingTenantID` when the
configured tenant is `None`, otherwise yields the fixed shared authority. -/
def set_authority (cfg : O365Config) : Except OAuthErr String :=
  match cfg.tenant with
  | none => .error .missingTenantID
  | some _ => .ok COMMON_AUTHORITY

/-- The mutable state of an `O365Auth` object. -/
structure O365State where
  authority : Option String
  token : Option PyStr
  deriving DecidableEq

/-- Embedding of `O365Auth.__init__`: stores the config with no token and
calls `_set_authority`, whose exception propagates to the constructor's
caller.  No network access happens here. -/
def O365Auth.init (cfg : O365Config) : Except OAuthErr O365State :=
  match set_authority cfg with
  | .error e => .error e
  | .ok a => .ok { authority := some a, token := none }

/-- The dict an msal token acquisition returns, restricted to whether the
token key is present and its value; the error code, description and
correlation id are only logged. -/
structure MsalDict where
  token : Option PyStr
  deriving DecidableEq

/-- External identity-provider behaviour: the result of the silent (cache)
attempt, where `none` models a falsy result, and the result of the
client-credentials network call when it is reached. -/
structure MsalOracle where
  silent : Option MsalDict
  fresh : MsalDict
  deriving DecidableEq

/-- Embedding of `O365Auth.client`: re-establish the authority if unset, try
the silent cache first, fall back to the client-credentials grant, then
either store the token or raise `TokenError`.  Also returns how many
token-endpoint (network) calls were made. -/
def O365Auth.client (st : O365State) (net : MsalOracle) :
    Except OAuthErr O365State × Nat :=
  let st :=
    { st with
      authority :=
        match st.authority with
        | none => some COMMON_AUTHORITY
        | some a => some a }
  let rc : MsalDict × Nat :=
    match net.silent with
    | some r => (r, 0)
    | none => (net.fresh, 1)
  match rc.1.token with
  | some t => (.ok { st with token := some t }, rc.2)
  | none => (.error .tokenError, rc.2)

/-- Outcome of one submission to the o365 credentials step: advance to
`config_2`, re-render the form with an errors dict whose only key is `base`,
or let an exception escape the step handler. -/
inductive O365StepOutcome
  | proceedConfig2
  | showForm (baseError : String)
  | uncaught (e : OAuthErr)
  deriving DecidableEq

/-- Embedding of `async_step_o365` for a non-None submission.  `O365Auth` is
constructed outside any try/except, so a constructor exception escapes the
step.  Inside the try block `app.client()` runs and then `test_login` is
invoked without `await`, so `valid` becomes a coroutine object, which is
truthy; on `TokenError` or `MissingTenantID` the handler records the `base`
error code and `valid` stays `False`.  Afterwards `if not valid` overwrites
the `base` error with "communication", and the step advances only when the
errors dict is empty.  The second component counts token-endpoint calls. -/
def async_step_o365 (net : MsalOracle) (cfg : O365Config) :
    O365StepOutcome × Nat :=
  match O365Auth.init cfg with
  | .error e => (.uncaught e, 0)
  | .ok st =>
    let cr := O365Auth.client st net
    let validAndErr : Bool × Option String :=
      match cr.1 with
      | .ok _ => (true, none)
      | .error .tokenError => (false, some "token")
      | .error .missingTenantID => (false, some "tenant")
    let errors : Option String :=
      if !validAndErr.1 then some "communication" else validAndErr.2
    match errors with
    | none => (.proceedConfig2, cr.2)
    | some c => (.showForm c, cr.2)

/-- Outcome of the reauth branch of `async_oauth_create_entry`:
`updatedWith` is the `data=` argument passed to the host's
`async_update_entry`, where `none` models Python `None`. -/
structure ReauthOutcome where
  updatedWith : Option (Dict String)
  newEntryCreated : Bool
  reloads : Nat
  abortReason : String
  deriving DecidableEq

/-- Embedding of the reauth branch of `async_oauth_create_entry`:
`data = self.reauth_entry.data.update(data)` binds the value of the update
expression — Python `None` — and passes it to `async_update_entry`, then
reloads the entry once and aborts with reason `reauth_successful`.  The
merged dict produced by the update is discarded. -/
def async_oauth_create_entry_reauth (entryData tokenData : Dict String) :
    ReauthOutcome :=
  let r := pyDictUpdateRet entryData tokenData
  { updatedWith := r.2
    newEntryCreated := false
    reloads := 1
    abortReason := "reauth_successful" }

/-- A step-2 submission with both numeric fields below their floors. -/
def uLow : UserInput :=
  { amazon_fwds := .list []
    generate_mp4 := false
    custom_img := false
    custom_img_file := none
    scan_interval := 4
    imap_timeout := 9 }

/-- A step-2 submission sitting exactly on both numeric boundaries. -/
def uBoundary : UserInput :=
  { amazon_fwds := .list []
    generate_mp4 := false
    custom_img := false
    custom_img_file := none
    scan_interval := 5
    imap_timeout := 10 }

/-- A valid step-2 submission with the custom-image flag set. -/
def uCustomTrue : UserInput :=
  { amazon_fwds := .list []
    generate_mp4 := false
    custom_img := true
    custom_img_file := none
    scan_interval := 5
    imap_timeout := 10 }

/-- A step-2 submission whose amazon-forwards field is already a list that
contains an address on the vendor domain. -/
def uAmazonList : UserInput :=
  { amazon_fwds := .list [pstr "c@amazon.com"]
    generate_mp4 := false
    custom_img := false
    custom_img_file := none
    scan_interval := 5
    imap_timeout := 10 }

/-- Accumulated flow data as it stands when step 2 is reached. -/
def d0 : FlowData :=
  { host := pstr "mail.example.com"
    amazon_fwds := .list []
    generate_mp4 := false
    custom_img := false
    custom_img_file := none
    scan_interval := 5
    imap_timeout := 10 }

/-- Identity-provider behaviour whose responses never carry a token: the
cache misses and the client-credentials call returns an error dict. -/
def netNoToken : MsalOracle := { silent := none, fresh := { token := none } }

/-- Identity-provider behaviour that returns a token from the network. -/
def netToken : MsalOracle :=
  { silent := none, fresh := { token := some (pstr "tok") } }

/-- An o365 configuration with a tenant supplied. -/
def cfgTenant : O365Config :=
  { tenant := some (pstr "contoso"), client_id := pstr "client-id", secret := pstr "s3cret" }

/-- An o365 configuration whose tenant is Python `None`. -/
def cfgNoTenant : O365Config :=
  { tenant := none, client_id := pstr "client-id", secret := pstr "s3cret" }

/-- Existing entry data of a record being re-authenticated. -/
def entryData0 : Dict String := [("host", "imap.example.com"), ("token", "old")]

/-- Freshly obtained token data during re-authentication. -/
def tokenData0 : Dict String := [("token", "new"), ("expires_in", "3600")]

/-- The accumulator of the `_get_mailboxes` parse loop only prepends: running
the loop from `acc` equals `acc` followed by the run from the empty list, and
the IndexError flag does not depend on the accumulator. -/
theorem mailboxLoop_acc (sep : PyStr) (fl : List PyStr) (acc : List PyStr) :
    mailboxLoop sep fl acc
      = (acc ++ (mailboxLoop sep fl []).1, (mailboxLoop sep fl []).2) := by
  induction fl generalizing acc with
  | nil => simp [mailboxLoop]
  | cons i rest ih =>
    cases h : (pySplit sep i)[1]? with
    | none => simp [mailboxLoop, h]
    | some name =>
      simp only [mailboxLoop, h, List.nil_append]
      rw [ih (acc ++ [name]), ih [name]]
      simp

/-- The amazon block of `_validate_user_input` rewrites only the
amazon-forwards field; every other field of the mapping is unchanged. -/
theorem validate_amazon_preserves (u : UserInput) :
    (validate_amazon u).2.generate_mp4 = u.generate_mp4
    ∧ (validate_amazon u).2.custom_img = u.custom_img
    ∧ (validate_amazon u).2.custom_img_file = u.custom_img_file
    ∧ (validate_amazon u).2.scan_interval = u.scan_interval
    ∧ (validate_amazon u).2.imap_timeout = u.imap_timeout := by
  cases h : u.amazon_fwds <;> simp [validate_amazon, h]

/-- A key bound in the left part of an association-list append is bound in
the whole append. -/
theorem dlookup_append_left {V : Type} (k : String) (l₁ l₂ : Dict V) :
    (dlookup k l₁).isSome = true → (dlookup k (l₁ ++ l₂)).isSome = true := by
  induction l₁ with
  | nil => intro h; simp [dlookup] at h
  | cons p t ih =>
    intro h
    by_cases hk : k = p.1
    · simp [dlookup, hk]
    · simp only [dlookup, if_neg hk] at h
      simp only [List.cons_append, dlookup, if_neg hk]
      exact ih h

/-- The map part of `dictUpdate` keeps every key of the original dict. -/
theorem dlookup_map_isSome {V : Type} (d u : Dict V) (k : String) :
    (dlookup k d).isSome = true →
    (dlookup k (d.map (fun p =>
      match dlookup p.1 u with
      | some v => (p.1, v)
      | none => p))).isSome = true := by
  induction d with
  | nil => intro h; simp [dlookup] at h
  | cons p t ih =>
    intro h
    by_cases hk : k = p.1
    · cases hu : dlookup p.1 u <;> simp [dlookup, hu, hk]
    · simp only [dlookup, if_neg hk] at h
      cases hu : dlookup p.1 u <;>
        · simp only [List.map_cons, hu, dlookup, if_neg hk]
          exact ih h

/-- C1 counterexample: on the listing `exListing` both the slash parse and
the period parse fail with an IndexError, yet the result of
`_get_mailboxes` is not exactly the one-element default folder list — the
folder parsed before the slash failure survives, because the mailboxes list
is never reset between the attempts. -/
theorem get_mailboxes_both_fail_not_default_only :
    (mailboxLoop SEP_SLASH exListing []).2 = true
    ∧ (mailboxLoop SEP_DOT exListing
        ((mailboxLoop SEP_SLASH exListing []).1)).2 = true
    ∧ get_mailboxes (pstr "OK") exListing ≠ [DEFAULT_FOLDER] := by decide

/-- C1 (amended): when the slash parse of some entry fails with an
IndexError, the whole listing is re-parsed with the period delimiter, but
the period results are appended after the entries already parsed with the
slash delimiter; when the period parse also fails, the default folder is
appended after all partial results, so the result is exactly the one-element
default list precisely in cases where no entry was parsed by either attempt,
for instance when the first entry fails under both delimiters. -/
theorem get_mailboxes_fallback_chain (fl : List PyStr) :
    ((mailboxLoop SEP_SLASH fl []).2 = true →
      (mailboxLoop SEP_DOT fl []).2 = false →
      get_mailboxes (pstr "OK") fl
        = (mailboxLoop SEP_SLASH fl []).1 ++ (mailboxLoop SEP_DOT fl []).1)
    ∧ ((mailboxLoop SEP_SLASH fl []).2 = true →
      (mailboxLoop SEP_DOT fl []).2 = true →
      get_mailboxes (pstr "OK") fl
        = (mailboxLoop SEP_SLASH fl []).1 ++ (mailboxLoop SEP_DOT fl []).1
            ++ [DEFAULT_FOLDER])
    ∧ (∀ h t, fl = h :: t → (pySplit SEP_SLASH h)[1]? = none →
      (pySplit SEP_DOT h)[1]? = none →
      get_mailboxes (pstr "OK") fl = [DEFAULT_FOLDER]) := by
  refine ⟨?_, ?_, ?_⟩
  · intro h1 h2
    simp only [get_mailboxes,
      mailboxLoop_acc SEP_DOT fl ((mailboxLoop SEP_SLASH fl []).1), h1, h2]
    simp
  · intro h1 h2
    simp only [get_mailboxes,
      mailboxLoop_acc SEP_DOT fl ((mailboxLoop SEP_SLASH fl []).1), h1, h2]
    simp
  · intro h t hfl hs hd
    subst hfl
    simp [get_mailboxes, mailboxLoop, hs, hd]

/-- Witness for C1: the amended fallback-chain theorem applied to the
concrete listing `exListing`, on which both parses fail. -/
theorem get_mailboxes_fallback_chain_witness :
    get_mailboxes (pstr "OK") exListing
      = (mailboxLoop SEP_SLASH exListing []).1
          ++ (mailboxLoop SEP_DOT exListing []).1 ++ [DEFAULT_FOLDER] :=
  (get_mailboxes_fallback_chain exListing).2.1 (by decide) (by decide)

/-- C2: at a submission where token acquisition raises `TokenError` (the
provider's responses carry no token), the o365 step re-renders with base
error code "communication", not "token" — the handler's assignment of
"token" is overwritten by the `if not valid` check that follows it. -/
theorem o365_token_error_shows_communication :
    (async_step_o365 netNoToken cfgTenant).1 = .showForm "communication"
    ∧ (async_step_o365 netNoToken cfgTenant).1 ≠ .showForm "token"
    ∧ (async_step_o365 netNoToken cfgTenant).2 = 1 := by decide

/-- C3: with the tenant unset, constructing `O365Auth` raises
`MissingTenantID` before any token-endpoint call is made (zero calls), but
the o365 step does not surface a "tenant" form error: the constructor runs
outside the try block, so the exception escapes the step uncaught. -/
theorem o365_missing_tenant_uncaught :
    O365Auth.init cfgNoTenant = .error .missingTenantID
    ∧ async_step_o365 netToken cfgNoTenant
        = (.uncaught .missingTenantID, 0) := by
  constructor <;> rfl

/-- C4: in the reauth branch of `async_oauth_create_entry`, the value passed
to the host's entry update is Python `None` — the return value of
`dict.update` — and not the merged mapping; the branch does reload exactly
once, creates no new record, and aborts with reason `reauth_successful`. -/
theorem reauth_update_passes_none :
    async_oauth_create_entry_reauth entryData0 tokenData0
      = { updatedWith := none
          newEntryCreated := false
          reloads := 1
          abortReason := "reauth_successful" }
    ∧ (async_oauth_create_entry_reauth entryData0 tokenData0).updatedWith
        ≠ some (dictUpdate entryData0 tokenData0) := by
  constructor <;> decide

/-- C5: every raw forwarding string containing the substring `@amazon` gets
status `amazon_domain` and every string without it gets status `ok`;
moreover the four concrete parses of the claim evaluate as stated. -/
theorem check_amazon_forwards_spec (s : PyStr) :
    (pyContains (pstr "@amazon") s = true →
      (check_amazon_forwards s).1 = ["amazon_domain"])
    ∧ (pyContains (pstr "@amazon") s = false →
      (check_amazon_forwards s).1 = ["ok"])
    ∧ check_amazon_forwards (pstr "") = (["ok"], [])
    ∧ check_amazon_forwards (pstr "(none)") = (["ok"], [])
    ∧ check_amazon_forwards (pstr "a@b.com") = (["ok"], [pstr "a@b.com"])
    ∧ check_amazon_forwards (pstr "a@b.com,c@amazon.com")
        = (["amazon_domain"], [pstr "a@b.com", pstr "c@amazon.com"]) := by
  refine ⟨?_, ?_, by decide, by decide, by decide, by decide⟩
  · intro h
    simp [check_amazon_forwards, h]
  · intro h
    simp [check_amazon_forwards, h]

/-- Witness for C5: the parser theorem applied to a string on the vendor
domain and to one off it. -/
theorem check_amazon_forwards_spec_witness :
    (check_amazon_forwards (pstr "x@amazon.de")).1 = ["amazon_domain"]
    ∧ (check_amazon_forwards (pstr "plain")).1 = ["ok"] :=
  ⟨(check_amazon_forwards_spec (pstr "x@amazon.de")).1 (by decide),
   (check_amazon_forwards_spec (pstr "plain")).2.1 (by decide)⟩

/-- C6: every submitted scan interval strictly below 5 yields the field
error `scan_too_low`, every protocol timeout strictly below 10 yields
`timeout_too_low`, and the boundary values 5 and 10 (and everything above)
produce no such error, for any external-collaborator behaviour. -/
theorem validate_user_input_numeric_floors (ffmpegOk : Bool)
    (fileExists : PyStr → Bool) (u : UserInput) :
    (u.scan_interval < 5 →
      (validate_user_input ffmpegOk fileExists u).1.scan_interval
        = some "scan_too_low")
    ∧ (5 ≤ u.scan_interval →
      (validate_user_input ffmpegOk fileExists u).1.scan_interval = none)
    ∧ (u.imap_timeout < 10 →
      (validate_user_input ffmpegOk fileExists u).1.imap_timeout
        = some "timeout_too_low")
    ∧ (10 ≤ u.imap_timeout →
      (validate_user_input ffmpegOk fileExists u).1.imap_timeout = none) := by
  have hs := (validate_amazon_preserves u).2.2.2.1
  have ht := (validate_amazon_preserves u).2.2.2.2
  refine ⟨fun h => ?_, fun h => ?_, fun h => ?_, fun h => ?_⟩ <;>
    simp [validate_user_input, hs, ht, h]

/-- Witness for C6: the numeric-floor theorem applied to a submission with
both fields one below the floors and to one sitting on the boundaries. -/
theorem validate_user_input_numeric_floors_witness :
    (validate_user_input true (fun _ => true) uLow).1.scan_interval
      = some "scan_too_low"
    ∧ (validate_user_input true (fun _ => true) uBoundary).1.scan_interval = none
    ∧ (validate_user_input true (fun _ => true) uLow).1.imap_timeout
      = some "timeout_too_low"
    ∧ (validate_user_input true (fun _ => true) uBoundary).1.imap_timeout = none :=
  ⟨(validate_user_input_numeric_floors true (fun _ => true) uLow).1 (by decide),
   (validate_user_input_numeric_floors true (fun _ => true) uBoundary).2.1
     (by decide),
   (validate_user_input_numeric_floors true (fun _ => true) uLow).2.2.1
     (by decide),
   (validate_user_input_numeric_floors true (fun _ => true) uBoundary).2.2.2
     (by decide)⟩

/-- C7: when validation of a `config_2` submission returns zero errors, the
flow advances to the custom-image step exactly when the accumulated
custom-image flag is true, and otherwise creates the entry directly,
skipping that step. -/
theorem step_config_2_branching (ffmpegOk : Bool) (fileExists : PyStr → Bool)
    (d : FlowData) (u : UserInput)
    (hv : (validate_user_input ffmpegOk fileExists u).1.isEmpty = true) :
    ((d.updateWith (validate_user_input ffmpegOk fileExists u).2).custom_img
        = true →
      async_step_config_2 ffmpegOk fileExists d u
        = .goConfig3 (d.updateWith (validate_user_input ffmpegOk fileExists u).2))
    ∧ ((d.updateWith (validate_user_input ffmpegOk fileExists u).2).custom_img
        = false →
      async_step_config_2 ffmpegOk fileExists d u
        = .createEntry
            (d.updateWith (validate_user_input ffmpegOk fileExists u).2).host
            (d.updateWith (validate_user_input ffmpegOk fileExists u).2)) := by
  constructor <;> intro h <;> simp [async_step_config_2, hv, h]

/-- Witness for C7: the branching theorem applied to a valid submission with
the custom-image flag set and to one with it cleared. -/
theorem step_config_2_branching_witness :
    async_step_config_2 true (fun _ => true) d0 uCustomTrue
      = .goConfig3
          (d0.updateWith (validate_user_input true (fun _ => true) uCustomTrue).2)
    ∧ async_step_config_2 true (fun _ => true) d0 uBoundary
      = .createEntry
          (d0.updateWith
            (validate_user_input true (fun _ => true) uBoundary).2).host
          (d0.updateWith (validate_user_input true (fun _ => true) uBoundary).2) :=
  ⟨(step_config_2_branching true (fun _ => true) d0 uCustomTrue (by decide)).1
     (by decide),
   (step_config_2_branching true (fun _ => true) d0 uBoundary (by decide)).2
     (by decide)⟩

/-- C8: dict update — the model of `self._data.update(...)` used at every
step transition — never removes a key that was already accumulated; the
schema-default selector `_get_default` returns the submitted value whenever
the re-rendered step's `user_input` holds one, instead of the static
default; and a `config_2` submission that fails validation re-renders the
same step with the (validation-modified) submitted values and the error
dict. -/
theorem wizard_state_preservation :
    (∀ (V : Type) (d u : Dict V) (k : String),
      (dlookup k d).isSome = true → (dlookup k (dictUpdate d u)).isSome = true)
    ∧ (∀ (V : Type) (user_input default_dict : Dict V) (k : String) (v : V)
        (fb : Option V),
      dlookup k user_input = some v →
      get_default user_input default_dict k fb = some v)
    ∧ (∀ (ffmpegOk : Bool) (fileExists : PyStr → Bool) (d : FlowData)
        (u : UserInput),
      (validate_user_input ffmpegOk fileExists u).1.isEmpty = false →
      async_step_config_2 ffmpegOk fileExists d u
        = .showForm (validate_user_input ffmpegOk fileExists u).2
            (validate_user_input ffmpegOk fileExists u).1
            (d.updateWith (validate_user_input ffmpegOk fileExists u).2)) := by
  refine ⟨?_, ?_, ?_⟩
  · intro V d u k h
    have h2 := dlookup_map_isSome d u k h
    have h3 := dlookup_append_left k _
      (u.filter (fun p => (dlookup p.1 d).isNone)) h2
    simpa [dictUpdate] using h3
  · intro V ui dd k v fb h
    simp [get_default, h]
  · intro ff fe d u hv
    simp [async_step_config_2, hv]

/-- Witness for C8: the preservation theorem applied to a concrete
accumulated dict and update, a concrete re-render default lookup, and a
concrete failing `config_2` submission. -/
theorem wizard_state_preservation_witness :
    (dlookup "host"
      (dictUpdate [("host", "imap.example.com")] [("folder", "INBOX")])).isSome
      = true
    ∧ get_default [("folder", "Sent")] [("folder", "INBOX")] "folder" none
      = some "Sent"
    ∧ async_step_config_2 true (fun _ => true) d0 uLow
      = .showForm (validate_user_input true (fun _ => true) uLow).2
          (validate_user_input true (fun _ => true) uLow).1
          (d0.updateWith (validate_user_input true (fun _ => true) uLow).2) :=
  ⟨wizard_state_preservation.1 String [("host", "imap.example.com")]
     [("folder", "INBOX")] "host" (by decide),
   wizard_state_preservation.2.1 String [("folder", "Sent")]
     [("folder", "INBOX")] "folder" "Sent" none (by decide),
   wizard_state_preservation.2.2 true (fun _ => true) d0 uLow (by decide)⟩

/-- C9: for every configuration whose tenant is not `None`, `_set_authority`
yields the fixed shared authority URL; the tenant value is only compared
against `None` and never appears in the authority. -/
theorem set_authority_common_for_any_tenant (cfg : O365Config) (t : PyStr)
    (h : cfg.tenant = some t) :
    set_authority cfg = .ok "https://login.microsoftonline.com/common" := by
  simp [set_authority, h, COMMON_AUTHORITY]

/-- Witness for C9: the authority theorem applied to a configuration with a
concrete tenant. -/
theorem set_authority_common_for_any_tenant_witness :
    set_authority cfgTenant = .ok "https://login.microsoftonline.com/common" :=
  set_authority_common_for_any_tenant cfgTenant (pstr "contoso") (by decide)

/-- C10: when the amazon-forwards field is not a string (an already-parsed
list, even one containing vendor-domain addresses), `_validate_user_input`
passes it through unchanged and produces no amazon-forwards field error. -/
theorem validate_user_input_non_string_forwards (ffmpegOk : Bool)
    (fileExists : PyStr → Bool) (u : UserInput) (l : List PyStr)
    (h : u.amazon_fwds = .list l) :
    (validate_user_input ffmpegOk fileExists u).2.amazon_fwds = .list l
    ∧ (validate_user_input ffmpegOk fileExists u).1.amazon_fwds = none := by
  constructor <;> simp [validate_user_input, validate_amazon, h]

/-- Witness for C10: the pass-through theorem applied to a list already
containing a vendor-domain address. -/
theorem validate_user_input_non_string_forwards_witness :
    (validate_user_input true (fun _ => true) uAmazonList).2.amazon_fwds
      = .list [pstr "c@amazon.com"]
    ∧ (validate_user_input true (fun _ => true) uAmazonList).1.amazon_fwds
      = none :=
  validate_user_input_non_string_forwards true (fun _ => true) uAmazonList
    [pstr "c@amazon.com"] (by decide)

end MailAndPackages
